import Mathlib

/-!
Verification of the calendar date engine and selection-state controller of a
date-picker widget toolkit.

The embedding mirrors, definition by definition, the TypeScript source:

* `src/utils/date.ts` — pure date arithmetic (`createDate`, `isSameDay`,
  `isBefore`, `isAfter`, `isDateDisabled`, `getDaysInMonth`, `addMonths`,
  `addDays`, `startOfMonth`, `getWeekday`, `generateCalendarDays`,
  `toISOString`, `fromISOString`);
* `src/context/CalendarContext.tsx` — the `CalendarProvider` selection-state
  controller (`initialDate` seeding, `selectDate`, `isInSelectedRange`, ...);
* `src/components/Day/Day.tsx` — keyboard navigation (`clampDate`,
  `handleKeyDown`).

The TypeScript code delegates all calendar arithmetic to the host's `Date`
object (`new Date(year, monthIndex, day)` followed by `getFullYear`,
`getMonth`, `getDate`, `getDay`).  The ECMAScript `Date` constructor semantics
are modelled here explicitly:

* a year argument in the inclusive interval 0..99 is mapped to 1900 + year
  (ECMAScript `MakeFullYear`) — `jsResolveYear`;
* the month index is an arbitrary integer, normalised into a (year, 1..12)
  pair by floor division — `normYM`;
* the day argument is an arbitrary integer, normalised by converting the
  civil date to a day count since the Unix epoch and back — `daysFromCivil`
  and `civilFromDays` (the standard proleptic-Gregorian conversion);
* `getDay` is the weekday with 0 = Sunday; day 0 of the epoch
  (1970-01-01) is a Thursday (weekday 4).

All divisions below use `Int`'s `/` and `%` (Euclidean division), which for
the positive constant divisors that occur (7, 12, 400, ...) coincide with the
floor division / nonnegative remainder the calendar algorithms require.
-/

/-- `CalendarDate` value from `src/types/index.ts`:
`{year: number, month: number (1-12), day: number}`. -/
structure CalendarDate where
  year : Int
  month : Int
  day : Int
deriving DecidableEq, Repr

/-- `DateRange` from `src/types/index.ts`: `{start, end}` where either side may
be `null`.  The `end` field is called `endDate` because `end` is a Lean
keyword. -/
structure DateRange where
  start : Option CalendarDate
  endDate : Option CalendarDate
deriving DecidableEq, Repr

/-- `createDate(year, month, day)` from `src/utils/date.ts`. -/
def createDate (year month day : Int) : CalendarDate :=
  ⟨year, month, day⟩

/-- `isSameDay(a, b)` from `src/utils/date.ts`: `false` when either argument
is null/undefined, otherwise fieldwise equality. -/
def isSameDay (a b : Option CalendarDate) : Bool :=
  match a, b with
  | some a, some b => a.year == b.year && a.month == b.month && a.day == b.day
  | _, _ => false

/-- `isSameMonth(a, b)` from `src/utils/date.ts`. -/
def isSameMonth (a b : CalendarDate) : Bool :=
  a.year == b.year && a.month == b.month

/-- `isBefore(a, b)` from `src/utils/date.ts`: lexicographic
(year, month, day) strict comparison. -/
def isBefore (a b : CalendarDate) : Bool :=
  if a.year != b.year then a.year < b.year
  else if a.month != b.month then a.month < b.month
  else a.day < b.day

/-- `isAfter(a, b)` from `src/utils/date.ts`. -/
def isAfter (a b : CalendarDate) : Bool :=
  if a.year != b.year then a.year > b.year
  else if a.month != b.month then a.month > b.month
  else a.day > b.day

/-- `isDateDisabled(date, minDate?, maxDate?, disabledDates?)` from
`src/utils/date.ts`.  Optional arguments are modelled with `Option`;
`disabledDates?.some((d) => isSameDay(d, date))`. -/
def isDateDisabled (date : CalendarDate) (minDate maxDate : Option CalendarDate)
    (disabledDates : Option (List CalendarDate)) : Bool :=
  match minDate with
  | some mn =>
    if isBefore date mn then true
    else
      match maxDate with
      | some mx =>
        if isAfter date mx then true
        else (disabledDates.getD []).any (fun d => isSameDay (some d) (some date))
      | none => (disabledDates.getD []).any (fun d => isSameDay (some d) (some date))
  | none =>
    match maxDate with
    | some mx =>
      if isAfter date mx then true
      else (disabledDates.getD []).any (fun d => isSameDay (some d) (some date))
    | none => (disabledDates.getD []).any (fun d => isSameDay (some d) (some date))

/-- ECMAScript `MakeFullYear`: a `Date`-constructor year argument in the
inclusive interval 0..99 denotes 1900 + year. -/
def jsResolveYear (y : Int) : Int :=
  if 0 ≤ y ∧ y ≤ 99 then 1900 + y else y

/-- Normalise a (year, 0-based month index) pair as the `Date` constructor
does: the index may be any integer and overflows into the year by floor
division.  Returns the year and the 1-based month (1..12). -/
def normYM (y m : Int) : Int × Int :=
  (y + m / 12, m % 12 + 1)

/-- Day count since 1970-01-01 of a proleptic-Gregorian civil date with month
in 1..12 (day may be any integer: day `d` means day 1 of the month plus
`d - 1` days).  Standard era/year-of-era decomposition. -/
def daysFromCivil (y m d : Int) : Int :=
  let y' := if m ≤ 2 then y - 1 else y
  let era := y' / 400
  let yoe := y' - era * 400
  let mp := if m > 2 then m - 3 else m + 9
  let doy := (153 * mp + 2) / 5 + d - 1
  let doe := yoe * 365 + yoe / 4 - yoe / 100 + doy
  era * 146097 + doe - 719468

/-- Inverse of `daysFromCivil`: the civil date of a day count since
1970-01-01. -/
def civilFromDays (z : Int) : CalendarDate :=
  let z' := z + 719468
  let era := z' / 146097
  let doe := z' - era * 146097
  let yoe := (doe - doe / 1460 + doe / 36524 - doe / 146096) / 365
  let y := yoe + era * 400
  let doy := doe - (365 * yoe + yoe / 4 - yoe / 100)
  let mp := (5 * doy + 2) / 153
  let d := doy - (153 * mp + 2) / 5 + 1
  let m := if mp < 10 then mp + 3 else mp - 9
  ⟨y + (if m ≤ 2 then 1 else 0), m, d⟩

/-- Gregorian leap-year rule. -/
def isLeapYear (y : Int) : Bool :=
  (y % 4 == 0 && y % 100 != 0) || y % 400 == 0

/-- Length of month `m` (1..12) of year `y` in the proleptic Gregorian
calendar. -/
def monthLength (y m : Int) : Int :=
  if m == 2 then (if isLeapYear y then 29 else 28)
  else if m == 4 || m == 6 || m == 9 || m == 11 then 30
  else 31

/-- `getDaysInMonth(year, month)` from `src/utils/date.ts`:
`new Date(year, month, 0).getDate()`, i.e. the last day of the month at
0-based index `month - 1` of the (two-digit-resolved) year. -/
def getDaysInMonth (year month : Int) : Int :=
  let yr := jsResolveYear year
  let ym := normYM yr (month - 1)
  monthLength ym.1 ym.2

/-- `addMonths(date, amount)` from `src/utils/date.ts`:
`new Date(date.year, date.month - 1 + amount, 1)` read back out; the result's
day is always 1. -/
def addMonths (date : CalendarDate) (amount : Int) : CalendarDate :=
  let yr := jsResolveYear date.year
  let ym := normYM yr (date.month - 1 + amount)
  createDate ym.1 ym.2 1

/-- `addDays(date, amount)` from `src/utils/date.ts`:
`new Date(date.year, date.month - 1, date.day + amount)` read back out. -/
def addDays (date : CalendarDate) (amount : Int) : CalendarDate :=
  let yr := jsResolveYear date.year
  let ym := normYM yr (date.month - 1)
  civilFromDays (daysFromCivil ym.1 ym.2 1 + (date.day - 1) + amount)

/-- `startOfMonth(date)` from `src/utils/date.ts`. -/
def startOfMonth (date : CalendarDate) : CalendarDate :=
  createDate date.year date.month 1

/-- `getWeekday(date)` from `src/utils/date.ts`:
`new Date(date.year, date.month - 1, date.day).getDay()`, 0 = Sunday. -/
def getWeekday (date : CalendarDate) : Int :=
  let yr := jsResolveYear date.year
  let ym := normYM yr (date.month - 1)
  (daysFromCivil ym.1 ym.2 1 + (date.day - 1) + 4) % 7

/-- `DAYS_PER_CALENDAR` from `src/utils/date.ts`: 7 days × 6 weeks. -/
def DAYS_PER_CALENDAR : Nat := 42

/-- The `daysFromPrevMonth` local of `generateCalendarDays`:
`(firstWeekday - weekStartsOn + 7) % 7`.  Both operands of the JS `%` are
derived from weekday values, so the dividend is nonnegative there and the
truncating JS remainder agrees with `%` (Euclidean remainder) used here. -/
def daysFromPrevMonth (month : CalendarDate) (weekStartsOn : Int) : Nat :=
  ((getWeekday (startOfMonth month) - weekStartsOn + 7) % 7).toNat

/-- The first loop of `generateCalendarDays`: for `i` from
`daysFromPrevMonth - 1` down to `0`, push day `daysInPrevMonth - i` of the
previous month. -/
def prevMonthCells (month : CalendarDate) (weekStartsOn : Int) : List CalendarDate :=
  let prevMonth := addMonths month (-1)
  let daysInPrevMonth := getDaysInMonth prevMonth.year prevMonth.month
  let lead := daysFromPrevMonth month weekStartsOn
  (List.range lead).map
    (fun (j : Nat) =>
      createDate prevMonth.year prevMonth.month (daysInPrevMonth - ((lead : Int) - 1 - (j : Int))))

/-- The second loop of `generateCalendarDays`: days `1 .. daysInMonth` of the
anchor month. -/
def currMonthCells (month : CalendarDate) : List CalendarDate :=
  (List.range (getDaysInMonth month.year month.month).toNat).map
    (fun (j : Nat) => createDate month.year month.month ((j : Int) + 1))

/-- The third loop of `generateCalendarDays`: days `1 .. remainingDays` of the
next month, where `remainingDays = DAYS_PER_CALENDAR - days.length` (the loop
body does not execute when `remainingDays ≤ 0`, matching truncating `Nat`
subtraction). -/
def nextMonthCells (month : CalendarDate) (weekStartsOn : Int) : List CalendarDate :=
  let nextMonth := addMonths month 1
  let remainingDays :=
    DAYS_PER_CALENDAR -
      ((prevMonthCells month weekStartsOn).length + (currMonthCells month).length)
  (List.range remainingDays).map
    (fun (j : Nat) => createDate nextMonth.year nextMonth.month ((j : Int) + 1))

/-- `generateCalendarDays(month, weekStartsOn)` from `src/utils/date.ts`:
previous-month lead cells, then the whole anchor month, then next-month cells
filling up to 42. -/
def generateCalendarDays (month : CalendarDate) (weekStartsOn : Int) : List CalendarDate :=
  prevMonthCells month weekStartsOn ++ currMonthCells month ++ nextMonthCells month weekStartsOn

/-- Decimal digit list of a natural number, most significant first; the first
argument is recursion fuel (any value `> n` is exact).  Models the decimal
digit expansion that ECMAScript `Number.prototype.toString` produces for
integral values. -/
def decimalDigitsAux : Nat → Nat → List Char
  | 0, _ => []
  | fuel + 1, n =>
    if n < 10 then [Nat.digitChar n]
    else decimalDigitsAux fuel (n / 10) ++ [Nat.digitChar (n % 10)]

/-- Decimal digit list of `n`, most significant first. -/
def decimalDigits (n : Nat) : List Char :=
  decimalDigitsAux (n + 1) n

/-- Models ECMAScript `Number.prototype.toString` (radix 10) on integral
values: decimal digits, preceded by `-` for negative numbers. -/
def jsNumberToString (n : Int) : String :=
  if n < 0 then "-" ++ ⟨decimalDigits (-n).toNat⟩ else ⟨decimalDigits n.toNat⟩

/-- `String.prototype.padStart(targetLength, pad)` for a one-character pad
string: prepend copies of `pad` until the length reaches `targetLength`. -/
def padStart (s : String) (targetLength : Nat) (pad : Char) : String :=
  ⟨List.replicate (targetLength - s.data.length) pad ++ s.data⟩

/-- `toISOString(date)` from `src/utils/date.ts`:
`` `${year}-${month}-${day}` `` with the year padded to 4 and month/day to 2
characters. -/
def toISOString (date : CalendarDate) : String :=
  padStart (jsNumberToString date.year) 4 '0' ++ "-" ++
    padStart (jsNumberToString date.month) 2 '0' ++ "-" ++
    padStart (jsNumberToString date.day) 2 '0'

/-- Numeric value of a decimal digit character (`parseInt` digit semantics). -/
def digitVal (c : Char) : Int :=
  ((c.toNat - '0'.toNat : Nat) : Int)

/-- `parseInt(s, 10)` on an all-digit string, given as its character list. -/
def parseDigits (cs : List Char) : Int :=
  cs.foldl (fun acc c => acc * 10 + digitVal c) 0

/-- `fromISOString(str)` from `src/utils/date.ts`: strict
`^(\d{4})-(\d{2})-(\d{2})$` match, `null` (modelled `none`) on mismatch,
otherwise the three captures parsed with `parseInt(_, 10)`. -/
def fromISOString (s : String) : Option CalendarDate :=
  match s.data with
  | [y1, y2, y3, y4, h1, m1, m2, h2, d1, d2] =>
    if y1.isDigit && y2.isDigit && y3.isDigit && y4.isDigit && h1 == '-' &&
        m1.isDigit && m2.isDigit && h2 == '-' && d1.isDigit && d2.isDigit then
      some (createDate (parseDigits [y1, y2, y3, y4]) (parseDigits [m1, m2])
        (parseDigits [d1, d2]))
    else none
  | _ => none

/-- The props of `CalendarProvider` (`src/context/CalendarContext.tsx`) that
the selection-state controller reads.  `value` distinguishes `undefined`
(outer `none`) from an explicit `null` (`some none`), since controlled-ness is
`value !== undefined` while `??` also falls through on `null`.  Callback props
are modelled by their presence (`hasOnChange`, `hasOnRangeChange`).
`disabledDates` defaults to `[]` in the destructuring. -/
structure CalendarProviderProps where
  value : Option (Option CalendarDate)
  defaultValue : Option CalendarDate
  hasOnChange : Bool
  rangeValue : Option DateRange
  defaultRangeValue : Option DateRange
  hasOnRangeChange : Bool
  minDate : Option CalendarDate
  maxDate : Option CalendarDate
  disabledDates : List CalendarDate
deriving DecidableEq, Repr

/-- `isRangeMode` in `CalendarProvider`:
`rangeValue !== undefined || defaultRangeValue !== undefined || onRangeChange !== undefined`. -/
def isRangeMode (p : CalendarProviderProps) : Bool :=
  p.rangeValue.isSome || p.defaultRangeValue.isSome || p.hasOnRangeChange

/-- `initialDate` in `CalendarProvider`: `value ?? defaultValue ?? today()`.
`??` falls through on both `undefined` and `null`.  The current system date
(`today()`) is an input of the model. -/
def initialDate (p : CalendarProviderProps) (systemToday : CalendarDate) : CalendarDate :=
  match p.value.bind id with
  | some d => d
  | none =>
    match p.defaultValue with
    | some d => d
    | none => systemToday

/-- The controller-owned mutable state of `CalendarProvider`: the two
uncontrolled-selection `useState` cells and the month/focus cursors. -/
structure ControllerState where
  internalSelectedDate : Option CalendarDate
  internalRange : DateRange
  currentMonth : CalendarDate
  focusedDate : CalendarDate
deriving DecidableEq, Repr

/-- The initial `useState` values of `CalendarProvider`:
`internalSelectedDate = defaultValue ?? null`,
`internalRange = defaultRangeValue ?? {start: null, end: null}`,
`currentMonth = focusedDate = initialDate`. -/
def initState (p : CalendarProviderProps) (systemToday : CalendarDate) : ControllerState :=
  ⟨p.defaultValue, p.defaultRangeValue.getD ⟨none, none⟩,
    initialDate p systemToday, initialDate p systemToday⟩

/-- `isControlled` in `CalendarProvider`: `value !== undefined`. -/
def isControlled (p : CalendarProviderProps) : Bool :=
  p.value.isSome

/-- `isRangeControlled` in `CalendarProvider`: `rangeValue !== undefined`. -/
def isRangeControlled (p : CalendarProviderProps) : Bool :=
  p.rangeValue.isSome

/-- `selectedDate` in `CalendarProvider`:
`isControlled ? value : internalSelectedDate`. -/
def selectedDate (p : CalendarProviderProps) (s : ControllerState) : Option CalendarDate :=
  if isControlled p then p.value.bind id else s.internalSelectedDate

/-- `selectedRange` in `CalendarProvider`:
`isRangeControlled ? rangeValue : internalRange`. -/
def selectedRange (p : CalendarProviderProps) (s : ControllerState) : DateRange :=
  match p.rangeValue with
  | some r => r
  | none => s.internalRange

/-- The `isDisabled` callback of `CalendarProvider`:
`isDateDisabled(date, minDate, maxDate, disabledDates)`. -/
def ctxIsDisabled (p : CalendarProviderProps) (date : CalendarDate) : Bool :=
  isDateDisabled date p.minDate p.maxDate (some p.disabledDates)

/-- The numeric encoding `date.year * 10000 + date.month * 100 + date.day`
used by `isInSelectedRange` and `selectDate` in `CalendarContext.tsx`. -/
def dateValue (d : CalendarDate) : Int :=
  d.year * 10000 + d.month * 100 + d.day

/-- `isInSelectedRange` in `CalendarProvider`: `false` when either endpoint is
absent, otherwise strict interior membership under the numeric encoding. -/
def isInSelectedRange (p : CalendarProviderProps) (s : ControllerState)
    (date : CalendarDate) : Bool :=
  let sel := selectedRange p s
  match sel.start, sel.endDate with
  | some st, some en => dateValue date > dateValue st && dateValue date < dateValue en
  | _, _ => false

/-- A change notification emitted by `selectDate`: a call of `onChange`
(single mode) or `onRangeChange` (range mode). -/
inductive ChangeNotification where
  | singleChange : Option CalendarDate → ChangeNotification
  | rangeChange : DateRange → ChangeNotification
deriving DecidableEq, Repr

/-- The `newRange` local of `selectDate` in `CalendarProvider`: start a new
range when `start` is absent or both endpoints are present, otherwise complete
the range, swapping when the new date's encoding is below `start`'s. -/
def rangeAfterSelect (p : CalendarProviderProps) (s : ControllerState)
    (date : CalendarDate) : DateRange :=
  let sel := selectedRange p s
  match sel.start with
  | none => ⟨some date, none⟩
  | some st =>
    match sel.endDate with
    | some _ => ⟨some date, none⟩
    | none =>
      if dateValue date < dateValue st then ⟨some date, some st⟩
      else ⟨some st, some date⟩

/-- The `newValue` local of `selectDate` in `CalendarProvider`: single-mode
toggle. -/
def valueAfterSelect (p : CalendarProviderProps) (s : ControllerState)
    (date : CalendarDate) : Option CalendarDate :=
  if isSameDay (some date) (selectedDate p s) then none else some date

/-- `selectDate` in `CalendarProvider`.  Returns the state after the call and
the list of notifications emitted during it.  Mirrors the source: early return
when disabled; otherwise compute the new range (range mode) or toggled value
(single mode); internal state is written only when the corresponding value is
uncontrolled; the callback, when supplied, is always invoked with the new
value. -/
def selectDate (p : CalendarProviderProps) (s : ControllerState)
    (date : CalendarDate) : ControllerState × List ChangeNotification :=
  if ctxIsDisabled p date then (s, [])
  else if isRangeMode p then
    let newRange := rangeAfterSelect p s date
    let s' := if isRangeControlled p then s else { s with internalRange := newRange }
    (s', if p.hasOnRangeChange then [ChangeNotification.rangeChange newRange] else [])
  else
    let newValue := valueAfterSelect p s date
    let s' := if isControlled p then s else { s with internalSelectedDate := newValue }
    (s', if p.hasOnChange then [ChangeNotification.singleChange newValue] else [])

/-- `clampDate` in `src/components/Day/Day.tsx`: clamp a candidate focus date
to the `minDate`/`maxDate` bounds, min first. -/
def clampDate (minDate maxDate : Option CalendarDate) (newDate : CalendarDate) : CalendarDate :=
  match minDate with
  | some mn =>
    if isDateDisabled newDate (some mn) none none then mn
    else
      match maxDate with
      | some mx => if isDateDisabled newDate none (some mx) none then mx else newDate
      | none => newDate
  | none =>
    match maxDate with
    | some mx => if isDateDisabled newDate none (some mx) none then mx else newDate
    | none => newDate

/-- The focus-target computation of `handleKeyDown` in
`src/components/Day/Day.tsx`: the `newFocusedDate` passed to
`setFocusedDate`, or `none` for `Enter`/`' '` (which select instead) and for
any other key (no-op). -/
def keyboardFocusTarget (minDate maxDate : Option CalendarDate)
    (date : CalendarDate) (key : String) (shiftKey : Bool) : Option CalendarDate :=
  if key == "ArrowLeft" then some (clampDate minDate maxDate (addDays date (-1)))
  else if key == "ArrowRight" then some (clampDate minDate maxDate (addDays date 1))
  else if key == "ArrowUp" then some (clampDate minDate maxDate (addDays date (-7)))
  else if key == "ArrowDown" then some (clampDate minDate maxDate (addDays date 7))
  else if key == "Home" then
    some (clampDate minDate maxDate (createDate date.year date.month 1))
  else if key == "End" then
    some (clampDate minDate maxDate
      (createDate date.year date.month (getDaysInMonth date.year date.month)))
  else if key == "PageUp" then
    if shiftKey then
      some (clampDate minDate maxDate
        (createDate (date.year - 1) date.month
          (min date.day (getDaysInMonth (date.year - 1) date.month))))
    else
      let prevMonth := addMonths date (-1)
      let maxDay := getDaysInMonth prevMonth.year prevMonth.month
      some (clampDate minDate maxDate
        (createDate prevMonth.year prevMonth.month (min date.day maxDay)))
  else if key == "PageDown" then
    if shiftKey then
      some (clampDate minDate maxDate
        (createDate (date.year + 1) date.month
          (min date.day (getDaysInMonth (date.year + 1) date.month))))
    else
      let nextMonth := addMonths date 1
      let maxDay := getDaysInMonth nextMonth.year nextMonth.month
      some (clampDate minDate maxDate
        (createDate nextMonth.year nextMonth.month (min date.day maxDay)))
  else none

/-- Validity of a `CalendarDate` per the data model: month in 1..12 and day in
1..31. -/
def validDate (d : CalendarDate) : Prop :=
  1 ≤ d.month ∧ d.month ≤ 12 ∧ 1 ≤ d.day ∧ d.day ≤ 31

instance (d : CalendarDate) : Decidable (validDate d) := by
  unfold validDate; infer_instance
-- helper lemmas

theorem monthLength_bounds (y m : Int) : 28 ≤ monthLength y m ∧ monthLength y m ≤ 31 := by
  unfold monthLength
  split_ifs <;> omega

theorem getDaysInMonth_bounds (y m : Int) :
    28 ≤ getDaysInMonth y m ∧ getDaysInMonth y m ≤ 31 :=
  monthLength_bounds _ _

theorem daysFromPrevMonth_le (month : CalendarDate) (w : Int) :
    daysFromPrevMonth month w ≤ 6 := by
  unfold daysFromPrevMonth
  have h1 : 0 ≤ (getWeekday (startOfMonth month) - w + 7) % 7 :=
    Int.emod_nonneg _ (by omega)
  have h2 : (getWeekday (startOfMonth month) - w + 7) % 7 < 7 :=
    Int.emod_lt_of_pos _ (by omega)
  omega

theorem prevMonthCells_length (month : CalendarDate) (w : Int) :
    (prevMonthCells month w).length = daysFromPrevMonth month w := by
  unfold prevMonthCells
  simp only [List.length_map, List.length_range]

theorem currMonthCells_length (month : CalendarDate) :
    (currMonthCells month).length = (getDaysInMonth month.year month.month).toNat := by
  unfold currMonthCells
  simp only [List.length_map, List.length_range]

theorem nextMonthCells_length (month : CalendarDate) (w : Int) :
    (nextMonthCells month w).length =
      42 - (daysFromPrevMonth month w + (getDaysInMonth month.year month.month).toNat) := by
  unfold nextMonthCells DAYS_PER_CALENDAR
  simp only [List.length_map, List.length_range, prevMonthCells_length, currMonthCells_length]

/-- C2: for every anchor `CalendarDate` (any year, month 1..12, any day) and
every `weekStartsOn` in 0..6, `generateCalendarDays` returns exactly 42
dates. -/
theorem generateCalendarDays_length (d : CalendarDate) (w : Int)
    (hm1 : 1 ≤ d.month) (hm2 : d.month ≤ 12) (hw1 : 0 ≤ w) (hw2 : w ≤ 6) :
    (generateCalendarDays d w).length = 42 := by
  unfold generateCalendarDays
  have hlead := daysFromPrevMonth_le d w
  have hdim := getDaysInMonth_bounds d.year d.month
  simp only [List.length_append, prevMonthCells_length, currMonthCells_length,
    nextMonthCells_length]
  omega

/-- C2 witness: the grid for 2026-01-15 with `weekStartsOn = 1` has 42
cells. -/
theorem generateCalendarDays_length_witness :
    (1 ≤ (createDate 2026 1 15).month ∧ (createDate 2026 1 15).month ≤ 12 ∧
      (0:Int) ≤ 1 ∧ (1:Int) ≤ 6) ∧
    (generateCalendarDays (createDate 2026 1 15) 1).length = 42 :=
  ⟨by decide,
    generateCalendarDays_length (createDate 2026 1 15) 1 (by decide) (by decide)
      (by decide) (by decide)⟩

/-- C9: the grid for anchor 2026-01-01 with `weekStartsOn = 0` has 42 cells,
starts at 2025-12-28, ends at 2026-02-07, every cell before 2026-01-01 lies in
December 2025 and every cell after 2026-01-31 lies in February 2026. -/
theorem generateCalendarDays_jan2026 :
    (generateCalendarDays (createDate 2026 1 1) 0).length = 42 ∧
    (generateCalendarDays (createDate 2026 1 1) 0).head? = some (createDate 2025 12 28) ∧
    (generateCalendarDays (createDate 2026 1 1) 0).getLast? = some (createDate 2026 2 7) ∧
    (∀ c ∈ generateCalendarDays (createDate 2026 1 1) 0,
      isBefore c (createDate 2026 1 1) = true → c.year = 2025 ∧ c.month = 12) ∧
    (∀ c ∈ generateCalendarDays (createDate 2026 1 1) 0,
      isAfter c (createDate 2026 1 31) = true → c.year = 2026 ∧ c.month = 2) := by
  decide

/-- C10 counterexample: for anchor February 2026 with `weekStartsOn = 0` the
lead is 0 (2026-02-01 is a Sunday) and the month has 28 days, so the tail
drawn from March 2026 has 14 cells — exceeding the claimed bound of 13. -/
theorem nextMonthCells_feb2026_fourteen :
    (generateCalendarDays (createDate 2026 2 1) 0).drop 28 =
      (List.range 14).map (fun (j : Nat) => createDate 2026 3 ((j : Int) + 1)) ∧
    13 < ((generateCalendarDays (createDate 2026 2 1) 0).countP
      (fun c => c.year == 2026 && c.month == 3)) := by
  decide

/-- C10 amended: the trailing cells of the grid are exactly days `1..N` of the
month after the anchor, with `N = 42 - leadDays - daysInCurrentMonth`, and `N`
never exceeds 14 (not 13 as claimed: `N = 14` occurs when a 28-day month
starts on the `weekStartsOn` weekday). -/
theorem generateCalendarDays_tail (d : CalendarDate) (w : Int) :
    (generateCalendarDays d w).drop
        (daysFromPrevMonth d w + (getDaysInMonth d.year d.month).toNat) =
      (List.range (42 - (daysFromPrevMonth d w + (getDaysInMonth d.year d.month).toNat))).map
        (fun (j : Nat) => createDate (addMonths d 1).year (addMonths d 1).month ((j : Int) + 1)) ∧
    42 - (daysFromPrevMonth d w + (getDaysInMonth d.year d.month).toNat) ≤ 14 := by
  constructor
  · have h : generateCalendarDays d w =
        (prevMonthCells d w ++ currMonthCells d) ++ nextMonthCells d w := by
      unfold generateCalendarDays
      rw [List.append_assoc]
    have hlen : (prevMonthCells d w ++ currMonthCells d).length =
        daysFromPrevMonth d w + (getDaysInMonth d.year d.month).toNat := by
      simp only [List.length_append, prevMonthCells_length, currMonthCells_length]
    rw [h, ← hlen, List.drop_left]
    unfold nextMonthCells DAYS_PER_CALENDAR
    rw [prevMonthCells_length, currMonthCells_length]
    rw [hlen]
  · have hdim := getDaysInMonth_bounds d.year d.month
    omega

/-- C7 counterexample: the ECMAScript `Date` constructor maps year arguments
0..99 to 1900 + year, so `addMonths({year: 5, month: 1, day: 1}, 0)` is
1905-01-01, not the claimed 0005-01-01; the add/subtract round trip then also
fails to restore the year. -/
theorem addMonths_year5_shift :
    addMonths (createDate 5 1 1) 0 = createDate 1905 1 1 ∧
    addMonths (createDate 5 1 1) 0 ≠ createDate 5 1 1 ∧
    (addMonths (addMonths (createDate 5 1 1) 3) (-3)).year ≠ 5 := by
  decide

theorem addMonths_eq (x : CalendarDate) (k : Int) :
    addMonths x k = createDate (jsResolveYear x.year + (x.month - 1 + k) / 12)
      ((x.month - 1 + k) % 12 + 1) 1 := rfl

/-- C7 amended: for dates whose year is outside the two-digit interval 0..99
(and month in 1..12 per the data model), `addMonths d n` has day 1, a month in
1..12, and shifts the linearised month count `12 * year + (month - 1)` by
exactly `n`; when the result's year is also outside 0..99,
`addMonths (addMonths d n) (-n)` restores the original year and month (with
day 1). -/
theorem addMonths_spec (d : CalendarDate) (n : Int)
    (hm1 : 1 ≤ d.month) (hm2 : d.month ≤ 12)
    (hy : d.year < 0 ∨ 99 < d.year) :
    (addMonths d n).day = 1 ∧
    1 ≤ (addMonths d n).month ∧ (addMonths d n).month ≤ 12 ∧
    12 * (addMonths d n).year + ((addMonths d n).month - 1)
      = 12 * d.year + (d.month - 1) + n ∧
    ((addMonths d n).year < 0 ∨ 99 < (addMonths d n).year →
      addMonths (addMonths d n) (-n) = createDate d.year d.month 1) := by
  have hres : jsResolveYear d.year = d.year := by
    unfold jsResolveYear
    rw [if_neg (by omega)]
  rw [addMonths_eq d n]
  dsimp only [createDate]
  rw [hres]
  refine ⟨rfl, by omega, by omega, by omega, ?_⟩
  intro hy2
  rw [addMonths_eq]
  dsimp only [createDate]
  have hres2 : jsResolveYear (d.year + (d.month - 1 + n) / 12) =
      d.year + (d.month - 1 + n) / 12 := by
    unfold jsResolveYear
    rw [if_neg (by omega)]
  simp only [hres2, CalendarDate.mk.injEq]
  exact ⟨by omega, by omega, trivial⟩

/-- C7 witness: instantiation at 2026-07-15 with `n = 3` — the result is
day 1 of October 2026 and the round trip returns to July 2026. -/
theorem addMonths_spec_witness :
    (1 ≤ (createDate 2026 7 15).month ∧ (createDate 2026 7 15).month ≤ 12 ∧
      ((createDate 2026 7 15).year < 0 ∨ 99 < (createDate 2026 7 15).year)) ∧
    (addMonths (createDate 2026 7 15) 3).day = 1 ∧
    1 ≤ (addMonths (createDate 2026 7 15) 3).month ∧
    (addMonths (createDate 2026 7 15) 3).month ≤ 12 ∧
    12 * (addMonths (createDate 2026 7 15) 3).year +
        ((addMonths (createDate 2026 7 15) 3).month - 1)
      = 12 * (createDate 2026 7 15).year + ((createDate 2026 7 15).month - 1) + 3 ∧
    ((addMonths (createDate 2026 7 15) 3).year < 0 ∨
        99 < (addMonths (createDate 2026 7 15) 3).year →
      addMonths (addMonths (createDate 2026 7 15) 3) (-3) =
        createDate (createDate 2026 7 15).year (createDate 2026 7 15).month 1) :=
  ⟨by decide,
    addMonths_spec (createDate 2026 7 15) 3 (by decide) (by decide) (by decide)⟩

theorem dateValue_lt_iff (a b : CalendarDate)
    (ha : validDate a) (hb : validDate b) :
    dateValue a < dateValue b ↔ isBefore a b = true := by
  unfold validDate at ha hb
  obtain ⟨ham1, ham2, had1, had2⟩ := ha
  obtain ⟨hbm1, hbm2, hbd1, hbd2⟩ := hb
  unfold dateValue isBefore
  split_ifs <;> simp_all [bne_iff_ne] <;> omega

/-- C6: `isInSelectedRange` is strict interior membership — for valid dates it
is true exactly when `start < d < end` in the lexicographic (year, month, day)
order, both endpoints excluded, and it is false whenever either endpoint is
absent. -/
theorem isInSelectedRange_strict_interior (p : CalendarProviderProps)
    (s : ControllerState) (d : CalendarDate) (hd : validDate d) :
    (∀ st en, (selectedRange p s).start = some st →
      (selectedRange p s).endDate = some en → validDate st → validDate en →
      (isInSelectedRange p s d = true ↔
        (isBefore st d = true ∧ isBefore d en = true))) ∧
    ((selectedRange p s).start = none ∨ (selectedRange p s).endDate = none →
      isInSelectedRange p s d = false) := by
  constructor
  · intro st en hst hen hvst hven
    simp only [isInSelectedRange, hst, hen, Bool.and_eq_true, gt_iff_lt,
      decide_eq_true_eq]
    rw [← dateValue_lt_iff st d hvst hd, ← dateValue_lt_iff d en hd hven]
  · intro h
    rcases h with h | h
    · simp only [isInSelectedRange, h]
    · cases hst : (selectedRange p s).start <;> simp only [isInSelectedRange, h, hst]

/-- C6 witness: with the controlled range 2026-01-10 .. 2026-01-20,
2026-01-15 is in the interior and the endpoints are excluded. -/
theorem isInSelectedRange_strict_interior_witness :
    (validDate (createDate 2026 1 15) ∧ validDate (createDate 2026 1 10) ∧
      validDate (createDate 2026 1 20)) ∧
    (isInSelectedRange
        ⟨none, none, false, some ⟨some (createDate 2026 1 10), some (createDate 2026 1 20)⟩,
          none, true, none, none, []⟩
        ⟨none, ⟨none, none⟩, createDate 2026 1 1, createDate 2026 1 1⟩
        (createDate 2026 1 15) = true ↔
      (isBefore (createDate 2026 1 10) (createDate 2026 1 15) = true ∧
        isBefore (createDate 2026 1 15) (createDate 2026 1 20) = true)) :=
  ⟨by decide,
    (isInSelectedRange_strict_interior
      ⟨none, none, false, some ⟨some (createDate 2026 1 10), some (createDate 2026 1 20)⟩,
        none, true, none, none, []⟩
      ⟨none, ⟨none, none⟩, createDate 2026 1 1, createDate 2026 1 1⟩
      (createDate 2026 1 15) (by decide)).1 (createDate 2026 1 10)
      (createDate 2026 1 20) rfl rfl (by decide) (by decide)⟩

/-- C1: in range mode (an `onRangeChange` handler is wired), selecting a
non-disabled valid date `d` emits `{start: d, end: null}` when `start` is
absent or the range is complete, and otherwise completes the range: swapped
`{start: d, end: start}` when `d` is lexicographically before `start`, else
`{start: start, end: d}` — so selecting `start` itself emits the zero-length
range `{start: d, end: d}`. -/
theorem selectDate_range_protocol (p : CalendarProviderProps)
    (s : ControllerState) (d : CalendarDate)
    (hcb : p.hasOnRangeChange = true)
    (hdis : ctxIsDisabled p d = false)
    (hd : validDate d) :
    ((selectedRange p s).start = none →
      (selectDate p s d).2 = [ChangeNotification.rangeChange ⟨some d, none⟩]) ∧
    (∀ st en, (selectedRange p s).start = some st →
      (selectedRange p s).endDate = some en →
      (selectDate p s d).2 = [ChangeNotification.rangeChange ⟨some d, none⟩]) ∧
    (∀ st, (selectedRange p s).start = some st →
      (selectedRange p s).endDate = none → validDate st →
      ((isBefore d st = true →
          (selectDate p s d).2 = [ChangeNotification.rangeChange ⟨some d, some st⟩]) ∧
        (isBefore d st = false →
          (selectDate p s d).2 = [ChangeNotification.rangeChange ⟨some st, some d⟩]) ∧
        (d = st →
          (selectDate p s d).2 = [ChangeNotification.rangeChange ⟨some d, some d⟩]))) := by
  have hrm : isRangeMode p = true := by
    unfold isRangeMode
    rw [hcb]
    simp
  refine ⟨?_, ?_, ?_⟩
  · intro hst
    simp only [selectDate, rangeAfterSelect, hdis, hrm, hcb, hst, Bool.false_eq_true, if_false, if_true]
  · intro st en hst hen
    simp only [selectDate, rangeAfterSelect, hdis, hrm, hcb, hst, hen, Bool.false_eq_true, if_false, if_true]
  · intro st hst hen hvst
    refine ⟨?_, ?_, ?_⟩
    · intro hlt
      have h : dateValue d < dateValue st := (dateValue_lt_iff d st hd hvst).mpr hlt
      simp only [selectDate, rangeAfterSelect, hdis, hrm, hcb, hst, hen,
        Bool.false_eq_true, if_false, if_true, if_pos h]
    · intro hlt
      have h : ¬dateValue d < dateValue st := by
        rw [dateValue_lt_iff d st hd hvst, hlt]
        simp
      simp only [selectDate, rangeAfterSelect, hdis, hrm, hcb, hst, hen,
        Bool.false_eq_true, if_false, if_true, if_neg h]
    · intro heq
      subst heq
      have h : ¬dateValue d < dateValue d := lt_irrefl _
      simp only [selectDate, rangeAfterSelect, hdis, hrm, hcb, hst, hen,
        Bool.false_eq_true, if_false, if_true, if_neg h]

/-- C1 witness: with current in-progress range `{start: 2026-01-20}`,
selecting 2026-01-10 (before the start) emits the swapped range. -/
theorem selectDate_range_protocol_witness :
    ((⟨none, none, false, some ⟨some (createDate 2026 1 20), none⟩, none, true,
        none, none, []⟩ : CalendarProviderProps).hasOnRangeChange = true ∧
      ctxIsDisabled
        ⟨none, none, false, some ⟨some (createDate 2026 1 20), none⟩, none, true,
          none, none, []⟩ (createDate 2026 1 10) = false ∧
      validDate (createDate 2026 1 10)) ∧
    (selectDate
        ⟨none, none, false, some ⟨some (createDate 2026 1 20), none⟩, none, true,
          none, none, []⟩
        ⟨none, ⟨none, none⟩, createDate 2026 1 1, createDate 2026 1 1⟩
        (createDate 2026 1 10)).2 =
      [ChangeNotification.rangeChange
        ⟨some (createDate 2026 1 10), some (createDate 2026 1 20)⟩] :=
  ⟨by decide,
    ((selectDate_range_protocol
        ⟨none, none, false, some ⟨some (createDate 2026 1 20), none⟩, none, true,
          none, none, []⟩
        ⟨none, ⟨none, none⟩, createDate 2026 1 1, createDate 2026 1 1⟩
        (createDate 2026 1 10) rfl (by decide) (by decide)).2.2
      (createDate 2026 1 20) rfl rfl (by decide)).1 (by decide)⟩

/-- C4: when the selected date is disabled under the current
`minDate`/`maxDate`/`disabledDates`, `selectDate` leaves the whole controller
state unchanged and emits nothing; when it is not disabled (and the active
mode's change handler is wired), the transition fully applies: exactly one
notification is emitted, the month/focus cursors are untouched, and for an
uncontrolled value the internal state recorded is exactly the value carried by
the notification. -/
theorem selectDate_atomic (p : CalendarProviderProps) (s : ControllerState)
    (d : CalendarDate)
    (hhandler : (if isRangeMode p then p.hasOnRangeChange else p.hasOnChange) = true) :
    (ctxIsDisabled p d = true → selectDate p s d = (s, [])) ∧
    (ctxIsDisabled p d = false →
      (selectDate p s d).2.length = 1 ∧
      (selectDate p s d).1.currentMonth = s.currentMonth ∧
      (selectDate p s d).1.focusedDate = s.focusedDate ∧
      (isRangeMode p = true → isRangeControlled p = false →
        ∀ r, (selectDate p s d).2 = [ChangeNotification.rangeChange r] →
          (selectDate p s d).1.internalRange = r) ∧
      (isRangeMode p = false → isControlled p = false →
        ∀ v, (selectDate p s d).2 = [ChangeNotification.singleChange v] →
          (selectDate p s d).1.internalSelectedDate = v)) := by
  constructor
  · intro hdis
    simp only [selectDate, hdis, if_true]
  · intro hdis
    cases hrm : isRangeMode p with
    | true =>
      rw [hrm] at hhandler
      simp only [if_true] at hhandler
      cases hrc : isRangeControlled p with
      | true =>
        have hsel : selectDate p s d =
            (s, [ChangeNotification.rangeChange (rangeAfterSelect p s d)]) := by
          simp only [selectDate, hdis, hrm, hrc, hhandler, Bool.false_eq_true, if_false,
            if_true]
        rw [hsel]
        refine ⟨rfl, rfl, rfl, ?_, ?_⟩
        · intro _ hcontra
          exact absurd hcontra (by simp)
        · intro hcontra
          exact absurd hcontra (by simp)
      | false =>
        have hsel : selectDate p s d =
            ({ s with internalRange := rangeAfterSelect p s d },
              [ChangeNotification.rangeChange (rangeAfterSelect p s d)]) := by
          simp only [selectDate, hdis, hrm, hrc, hhandler, Bool.false_eq_true, if_false,
            if_true]
        rw [hsel]
        refine ⟨rfl, rfl, rfl, ?_, ?_⟩
        · intro _ _ r hr
          injection hr with h1 h2
          injection h1
        · intro hcontra
          exact absurd hcontra (by simp)
    | false =>
      rw [hrm] at hhandler
      simp only [Bool.false_eq_true, if_false] at hhandler
      cases hc : isControlled p with
      | true =>
        have hsel : selectDate p s d =
            (s, [ChangeNotification.singleChange (valueAfterSelect p s d)]) := by
          simp only [selectDate, hdis, hrm, hc, hhandler, Bool.false_eq_true, if_false,
            if_true]
        rw [hsel]
        refine ⟨rfl, rfl, rfl, ?_, ?_⟩
        · intro hcontra
          exact absurd hcontra (by simp)
        · intro _ hcontra
          exact absurd hcontra (by simp)
      | false =>
        have hsel : selectDate p s d =
            ({ s with internalSelectedDate := valueAfterSelect p s d },
              [ChangeNotification.singleChange (valueAfterSelect p s d)]) := by
          simp only [selectDate, hdis, hrm, hc, hhandler, Bool.false_eq_true, if_false,
            if_true]
        rw [hsel]
        refine ⟨rfl, rfl, rfl, ?_, ?_⟩
        · intro hcontra
          exact absurd hcontra (by simp)
        · intro _ _ v hv
          injection hv with h1 h2
          injection h1

/-- C4 witness: a disabled date (in `disabledDates`) is a complete no-op. -/
theorem selectDate_atomic_witness :
    ((if isRangeMode ⟨none, none, true, none, none, false, none, none,
          [createDate 2026 1 15]⟩ then
        (⟨none, none, true, none, none, false, none, none,
          [createDate 2026 1 15]⟩ : CalendarProviderProps).hasOnRangeChange
      else
        (⟨none, none, true, none, none, false, none, none,
          [createDate 2026 1 15]⟩ : CalendarProviderProps).hasOnChange) = true) ∧
    (ctxIsDisabled ⟨none, none, true, none, none, false, none, none,
        [createDate 2026 1 15]⟩ (createDate 2026 1 15) = true →
      selectDate ⟨none, none, true, none, none, false, none, none,
          [createDate 2026 1 15]⟩
        ⟨none, ⟨none, none⟩, createDate 2026 1 1, createDate 2026 1 1⟩
        (createDate 2026 1 15) =
      (⟨none, ⟨none, none⟩, createDate 2026 1 1, createDate 2026 1 1⟩, [])) :=
  ⟨by decide,
    (selectDate_atomic
      ⟨none, none, true, none, none, false, none, none, [createDate 2026 1 15]⟩
      ⟨none, ⟨none, none⟩, createDate 2026 1 1, createDate 2026 1 1⟩
      (createDate 2026 1 15) (by decide)).1⟩

/-- C5 counterexample: with only a range value supplied (start 2026-05-15) and
no single value/default, the controller seeds `currentMonth` and `focusedDate`
from the current system date (here 2026-10-12), not from the range start —
`initialDate` is `value ?? defaultValue ?? today()` and never consults the
range props. -/
theorem initState_ignores_range_start :
    (initState
        ⟨none, none, false, some ⟨some (createDate 2026 5 15), none⟩, none, true,
          none, none, []⟩
        (createDate 2026 10 12)).currentMonth = createDate 2026 10 12 ∧
    (initState
        ⟨none, none, false, some ⟨some (createDate 2026 5 15), none⟩, none, true,
          none, none, []⟩
        (createDate 2026 10 12)).focusedDate = createDate 2026 10 12 ∧
    (initState
        ⟨none, none, false, some ⟨some (createDate 2026 5 15), none⟩, none, true,
          none, none, []⟩
        (createDate 2026 10 12)).currentMonth ≠ createDate 2026 5 15 := by
  decide

/-- C5 amended: `currentMonth` and `focusedDate` are both seeded from
`initialDate`, whose priority is explicit single value → explicit single
default → current system date; the range props (universally quantified here)
are never consulted, so in range mode with only a range value or default the
seed is the current system date. -/
theorem initState_seed_priority :
    (∀ (p : CalendarProviderProps) (t : CalendarDate),
      (initState p t).currentMonth = initialDate p t ∧
      (initState p t).focusedDate = initialDate p t) ∧
    (∀ (dv : Option CalendarDate) (hoc : Bool) (rv drv : Option DateRange)
        (hrc : Bool) (mn mx : Option CalendarDate) (dd : List CalendarDate)
        (v t : CalendarDate),
      initialDate ⟨some (some v), dv, hoc, rv, drv, hrc, mn, mx, dd⟩ t = v ∧
      initialDate ⟨none, some v, hoc, rv, drv, hrc, mn, mx, dd⟩ t = v ∧
      initialDate ⟨some none, some v, hoc, rv, drv, hrc, mn, mx, dd⟩ t = v ∧
      initialDate ⟨none, none, hoc, rv, drv, hrc, mn, mx, dd⟩ t = t ∧
      initialDate ⟨some none, none, hoc, rv, drv, hrc, mn, mx, dd⟩ t = t) :=
  ⟨fun _ _ => ⟨rfl, rfl⟩, fun _ _ _ _ _ _ _ _ _ _ => ⟨rfl, rfl, rfl, rfl, rfl⟩⟩

/-- C8: a PageUp keypress with shift held and no min/max bound moves focus to
the same month/day of the previous year with the day clamped to that month's
length; in particular 2026-02-28 goes to 2025-02-28 and 2024-02-29 (leap day)
goes to 2023-02-28. -/
theorem pageUpShift_previous_year :
    (∀ d : CalendarDate,
      keyboardFocusTarget none none d "PageUp" true =
        some (createDate (d.year - 1) d.month
          (min d.day (getDaysInMonth (d.year - 1) d.month)))) ∧
    keyboardFocusTarget none none (createDate 2026 2 28) "PageUp" true =
      some (createDate 2025 2 28) ∧
    keyboardFocusTarget none none (createDate 2024 2 29) "PageUp" true =
      some (createDate 2023 2 28) := by
  refine ⟨fun d => rfl, by decide, by decide⟩

theorem digitVal_digitChar (r : Nat) (h : r < 10) :
    digitVal (Nat.digitChar r) = (r : Int) := by
  interval_cases r <;> rfl

theorem isDigit_digitChar (r : Nat) (h : r < 10) :
    (Nat.digitChar r).isDigit = true := by
  interval_cases r <;> rfl

theorem parseDigits_append_singleton (xs : List Char) (c : Char) :
    parseDigits (xs ++ [c]) = parseDigits xs * 10 + digitVal c := by
  unfold parseDigits
  rw [List.foldl_append]
  rfl

theorem decimalDigitsAux_spec :
    ∀ fuel n, n < fuel →
      1 ≤ (decimalDigitsAux fuel n).length ∧
      (∀ c ∈ decimalDigitsAux fuel n, c.isDigit = true) ∧
      parseDigits (decimalDigitsAux fuel n) = (n : Int) := by
  intro fuel
  induction fuel with
  | zero => intro n hn; omega
  | succ f ih =>
    intro n hn
    unfold decimalDigitsAux
    by_cases h : n < 10
    · rw [if_pos h]
      refine ⟨by simp, ?_, ?_⟩
      · intro c hc
        simp only [List.mem_singleton] at hc
        subst hc
        exact isDigit_digitChar n h
      · show parseDigits ([] ++ [Nat.digitChar n]) = (n : Int)
        rw [parseDigits_append_singleton, digitVal_digitChar n h]
        show (0 : Int) * 10 + (n : Int) = (n : Int)
        ring
    · rw [if_neg h]
      obtain ⟨h1, h2, h3⟩ := ih (n / 10) (by omega)
      refine ⟨?_, ?_, ?_⟩
      · rw [List.length_append]
        omega
      · intro c hc
        rw [List.mem_append] at hc
        rcases hc with hc | hc
        · exact h2 c hc
        · simp only [List.mem_singleton] at hc
          subst hc
          exact isDigit_digitChar (n % 10) (by omega)
      · rw [parseDigits_append_singleton, h3, digitVal_digitChar (n % 10) (by omega)]
        omega

theorem decimalDigitsAux_length_le :
    ∀ k fuel n, n < fuel → n < 10 ^ k → 1 ≤ k →
      (decimalDigitsAux fuel n).length ≤ k := by
  intro k
  induction k with
  | zero => intro fuel n _ _ hk; omega
  | succ k ih =>
    intro fuel n hn hpow _
    cases fuel with
    | zero => omega
    | succ f =>
      unfold decimalDigitsAux
      by_cases h : n < 10
      · rw [if_pos h]
        simp
      · rw [if_neg h]
        rw [List.length_append]
        have hk1 : 1 ≤ k := by
          rcases Nat.eq_zero_or_pos k with hk0 | hk0
          · subst hk0
            rw [pow_one] at hpow
            omega
          · omega
        have hp : n / 10 < 10 ^ k := by
          rw [pow_succ] at hpow
          omega
        have := ih f (n / 10) (by omega) hp hk1
        simp only [List.length_singleton]
        omega

theorem parseDigits_replicate_zero (k : Nat) (xs : List Char) :
    parseDigits (List.replicate k '0' ++ xs) = parseDigits xs := by
  induction k with
  | zero => rfl
  | succ m ih =>
    rw [List.replicate_succ, List.cons_append]
    show List.foldl _ ((0 : Int) * 10 + digitVal '0') _ = _
    have h0 : (0 : Int) * 10 + digitVal '0' = 0 := by decide
    rw [h0]
    exact ih

theorem data_append (a b : String) : (a ++ b).data = a.data ++ b.data := by
  cases a
  cases b
  rfl

theorem padStart_decimal_spec (v : Int) (k : Nat) (h0 : 0 ≤ v)
    (hv : v.toNat < 10 ^ k) (hk : 1 ≤ k) :
    (padStart (jsNumberToString v) k '0').data.length = k ∧
    (∀ c ∈ (padStart (jsNumberToString v) k '0').data, c.isDigit = true) ∧
    parseDigits (padStart (jsNumberToString v) k '0').data = v := by
  have hjs : (jsNumberToString v).data = decimalDigits v.toNat := by
    unfold jsNumberToString
    rw [if_neg (by omega)]
  have hspec := decimalDigitsAux_spec (v.toNat + 1) v.toNat (by omega)
  have hlen := decimalDigitsAux_length_le k (v.toNat + 1) v.toNat (by omega) hv hk
  obtain ⟨hl1, hdig, hparse⟩ := hspec
  unfold decimalDigits at hjs
  have hpd : (padStart (jsNumberToString v) k '0').data =
      List.replicate (k - (jsNumberToString v).data.length) '0' ++
        (jsNumberToString v).data := rfl
  rw [hpd, hjs]
  refine ⟨?_, ?_, ?_⟩
  · rw [List.length_append, List.length_replicate]
    omega
  · intro c hc
    rw [List.mem_append] at hc
    rcases hc with hc | hc
    · rw [List.eq_of_mem_replicate hc]
      decide
    · exact hdig c hc
  · rw [parseDigits_replicate_zero, hparse]
    omega

theorem list_length_eq_four {α : Type} (l : List α) (h : l.length = 4) :
    ∃ a b c d, l = [a, b, c, d] := by
  match l, h with
  | [a, b, c, d], _ => exact ⟨a, b, c, d, rfl⟩

theorem list_length_eq_two {α : Type} (l : List α) (h : l.length = 2) :
    ∃ a b, l = [a, b] := by
  match l, h with
  | [a, b], _ => exact ⟨a, b, rfl⟩

/-- C3 counterexample: year 10000 is printed with five digits
("10000-01-01"), which the strict `^\d{4}-\d{2}-\d{2}$` parse rejects, so the
round trip fails for a valid date with a non-negative year. -/
theorem fromISO_toISO_year10000 :
    fromISOString (toISOString (createDate 10000 1 1)) = none ∧
    fromISOString (toISOString (createDate 10000 1 1)) ≠
      some (createDate 10000 1 1) := by
  decide

/-- C3 amended: for every valid date whose year is in 0..9999 (month 1..12,
day within the month's length), `fromISOString (toISOString d) = d`; years
of five or more digits fall outside the fixed-width parse. -/
theorem fromISO_toISO (d : CalendarDate)
    (hy0 : 0 ≤ d.year) (hy1 : d.year ≤ 9999)
    (hm0 : 1 ≤ d.month) (hm1 : d.month ≤ 12)
    (hd0 : 1 ≤ d.day) (hd1 : d.day ≤ getDaysInMonth d.year d.month) :
    fromISOString (toISOString d) = some d := by
  have hday31 : d.day ≤ 31 := by
    have := getDaysInMonth_bounds d.year d.month
    omega
  obtain ⟨hYlen, hYdig, hYparse⟩ :=
    padStart_decimal_spec d.year 4 hy0 (by norm_num; omega) (by norm_num)
  obtain ⟨hMlen, hMdig, hMparse⟩ :=
    padStart_decimal_spec d.month 2 (by omega) (by norm_num; omega) (by norm_num)
  obtain ⟨hDlen, hDdig, hDparse⟩ :=
    padStart_decimal_spec d.day 2 (by omega) (by norm_num; omega) (by norm_num)
  obtain ⟨y1, y2, y3, y4, hYeq⟩ := list_length_eq_four _ hYlen
  obtain ⟨m1, m2, hMeq⟩ := list_length_eq_two _ hMlen
  obtain ⟨d1, d2, hDeq⟩ := list_length_eq_two _ hDlen
  have hdata : (toISOString d).data =
      [y1, y2, y3, y4, '-', m1, m2, '-', d1, d2] := by
    unfold toISOString
    rw [data_append, data_append, data_append, data_append, hYeq, hMeq, hDeq]
    rfl
  have hy1d : y1.isDigit = true := hYdig y1 (by rw [hYeq]; simp)
  have hy2d : y2.isDigit = true := hYdig y2 (by rw [hYeq]; simp)
  have hy3d : y3.isDigit = true := hYdig y3 (by rw [hYeq]; simp)
  have hy4d : y4.isDigit = true := hYdig y4 (by rw [hYeq]; simp)
  have hm1d : m1.isDigit = true := hMdig m1 (by rw [hMeq]; simp)
  have hm2d : m2.isDigit = true := hMdig m2 (by rw [hMeq]; simp)
  have hd1d : d1.isDigit = true := hDdig d1 (by rw [hDeq]; simp)
  have hd2d : d2.isDigit = true := hDdig d2 (by rw [hDeq]; simp)
  rw [hYeq] at hYparse
  rw [hMeq] at hMparse
  rw [hDeq] at hDparse
  unfold fromISOString
  rw [hdata]
  dsimp only
  rw [if_pos (by simp [hy1d, hy2d, hy3d, hy4d, hm1d, hm2d, hd1d, hd2d])]
  rw [hYparse, hMparse, hDparse]
  rfl

/-- C3 witness: 2026-03-09 (padded month and day) round-trips. -/
theorem fromISO_toISO_witness :
    ((0 : Int) ≤ (createDate 2026 3 9).year ∧ (createDate 2026 3 9).year ≤ 9999 ∧
      1 ≤ (createDate 2026 3 9).month ∧ (createDate 2026 3 9).month ≤ 12 ∧
      1 ≤ (createDate 2026 3 9).day ∧
      (createDate 2026 3 9).day ≤
        getDaysInMonth (createDate 2026 3 9).year (createDate 2026 3 9).month) ∧
    fromISOString (toISOString (createDate 2026 3 9)) = some (createDate 2026 3 9) :=
  ⟨by decide,
    fromISO_toISO (createDate 2026 3 9) (by decide) (by decide) (by decide) (by decide)
      (by decide) (by decide)⟩
